import Mathlib

set_option maxRecDepth 100000

/-!
# Verification of the answer-capture / AI-response pipeline

Shallow embedding of the core of the AI-Mock-Interview repository:

* `RecordAnswer.*` — the answer session of `src/components/record-answer.tsx`
  (evaluation extraction `generateResult`, the short-answer guard in
  `recordUserAnswer`, transcript accumulation, and the idempotency-checked
  save path `saveUserAnswer`).
* `Part001.*` — question-set generation of the `FormMockInterview`
  component found in `src/unnamed/part_001` (`cleanAiResponse`,
  `generateAiResponse` with its 5-item fallback).
* `FormSrc.*` — the variant `generateAiResponse` of
  `src/components/form-mock-interview.tsx` (1-item fallback).

JavaScript builtins used by the code (`String.prototype.trim`,
`String.prototype.match` with the specific regexes appearing in the source,
`JSON.parse`) are modelled explicitly below; the model of `JSON.parse`
covers the JSON subset exercised here (strings with single-character
escapes, integer numerals, arrays, objects, literals; `\uXXXX` escapes and
fractional/exponent numbers are outside the modelled subset).
External collaborators (the Gemini call, Firestore, the speech hook) are
passed in as explicit oracle arguments, mirroring §6 of the design.
-/

/-! ## JavaScript string builtins -/

/-- Whitespace test used for both the JS regex class `\s` (restricted to the
ASCII whitespace actually exercised here) and JSON inter-token whitespace. -/
def isWsChar (c : Char) : Bool := c = ' ' || c = '\t' || c = '\n' || c = '\r'

/-- Model of `String.prototype.trim` on a character list: drop whitespace
from both ends. -/
def jsTrimL (l : List Char) : List Char :=
  ((l.dropWhile isWsChar).reverse.dropWhile isWsChar).reverse

/-- Model of `String.prototype.trim`. -/
def jsTrim (s : String) : String := String.mk (jsTrimL s.data)

/-- Case-insensitive character comparison, for the `/i` regex flag. -/
def charCaseEq (a b : Char) : Bool := a.toLower = b.toLower

/-- Does `text` start with `label`, compared case-insensitively?
Models the anchored part of matching a literal label under `/i`. -/
def matchesLabel : List Char → List Char → Bool
  | [], _ => true
  | _ :: _, [] => false
  | l :: ls, c :: cs => charCaseEq c l && matchesLabel ls cs

/-- Does `label` occur (case-insensitively) anywhere in the text? -/
def hasLabel (label : List Char) : List Char → Bool
  | [] => matchesLabel label []
  | c :: cs => matchesLabel label (c :: cs) || hasLabel label cs

/-- Decimal digits to a number, as `Number` does on a `\d+` capture. -/
def digitsToNat (ds : List Char) : Nat :=
  ds.foldl (fun n c => n * 10 + (c.toNat - 48)) 0

/-- The label of the rating regex `/Rating:\s*(\d+)/i`. -/
def ratingLabel : List Char := "Rating:".data

/-- The label of the feedback regex `/Feedback:\s*([\s\S]*)/i`. -/
def feedbackLabel : List Char := "Feedback:".data

/-- Model of `text.match(/Rating:\s*(\d+)/i)` followed by
`Number(match[1])`: scan left to right for a case-insensitive `Rating:`
whose maximal following whitespace is followed by at least one digit;
return the value of the maximal digit run (the regex engine retries at
later positions when the digit requirement fails, since `\s` and `\d` are
disjoint the greedy whitespace skip is exact). -/
def findRating : List Char → Option Nat
  | [] => none
  | c :: cs =>
    if matchesLabel ratingLabel (c :: cs) then
      let ds := (((c :: cs).drop ratingLabel.length).dropWhile isWsChar).takeWhile
        Char.isDigit
      if ds.isEmpty then findRating cs else some (digitsToNat ds)
    else findRating cs

/-- Model of `text.match(/Feedback:\s*([\s\S]*)/i)`: group 1 is everything
after the first case-insensitive `Feedback:` label and its maximal
following whitespace, through end of input. -/
def findFeedback : List Char → Option (List Char)
  | [] => none
  | c :: cs =>
    if matchesLabel feedbackLabel (c :: cs) then
      some (((c :: cs).drop feedbackLabel.length).dropWhile isWsChar)
    else findFeedback cs

/-! ## Data model of the session (record-answer.tsx) -/

/-- The `AIResponse` interface of record-answer.tsx. -/
structure AIResponse where
  ratings : Nat
  feedback : String
deriving DecidableEq, Repr

/-- The `question` prop: one canonical question/answer pair. -/
structure QA where
  question : String
  answer : String
deriving DecidableEq, Repr

namespace RecordAnswer

/-- The pure extraction core of `generateResult` (record-answer.tsx,
lines 123–131): the two regex matches applied to the raw AI text, with the
`0` / `"No feedback generated."` defaults when a match is absent and
`.trim()` on the captured feedback. -/
def parseEvaluation (text : String) : AIResponse :=
  { ratings := (findRating text.data).getD 0
  , feedback :=
      match findFeedback text.data with
      | some f => String.mk (jsTrimL f)
      | none => "No feedback generated." }

end RecordAnswer

/-! ## Model of JSON values and `JSON.parse` -/

/-- JSON values, as produced by `JSON.parse` (numbers restricted to
integers — the modelled subset; no claim exercises non-integer numbers). -/
inductive Json where
  | null : Json
  | bool (b : Bool) : Json
  | num (n : Int) : Json
  | str (s : String) : Json
  | arr (l : List Json) : Json
  | obj (l : List (String × Json)) : Json
deriving Repr

/-- JSON inter-token whitespace skip. -/
def skipWs (s : List Char) : List Char := s.dropWhile isWsChar

/-- Single-character string escapes (`\uXXXX` is outside the modelled
subset). -/
def escChar : Char → Except Unit Char
  | '"' => .ok '"'
  | '\\' => .ok '\\'
  | '/' => .ok '/'
  | 'n' => .ok '\n'
  | 't' => .ok '\t'
  | 'r' => .ok '\r'
  | 'b' => .ok (Char.ofNat 8)
  | 'f' => .ok (Char.ofNat 12)
  | _ => .error ()

/-- Parse a JSON string body (the opening quote already consumed):
characters up to the closing quote, rejecting unescaped control
characters as `JSON.parse` does. Returns the string and the rest. -/
def parseStrBody : List Char → Except Unit (String × List Char)
  | [] => .error ()
  | '\\' :: e :: rest => do
    let c ← escChar e
    let (s, r) ← parseStrBody rest
    .ok (String.mk (c :: s.data), r)
  | c :: rest =>
    if c = '"' then .ok ("", rest)
    else if c = '\\' then .error ()
    else if c.toNat < 32 then .error ()
    else do
      let (s, r) ← parseStrBody rest
      .ok (String.mk (c :: s.data), r)

/-- Parse an unsigned JSON integer numeral; fractional and exponent forms
are outside the modelled subset. -/
def parsePosNum (s : List Char) : Except Unit (Nat × List Char) :=
  let ds := s.takeWhile Char.isDigit
  if ds.isEmpty then .error ()
  else
    match s.drop ds.length with
    | '.' :: _ => .error ()
    | 'e' :: _ => .error ()
    | 'E' :: _ => .error ()
    | rest => .ok (digitsToNat ds, rest)

/-- Parse a JSON number (optional minus, integer numeral). -/
def parseNum (s : List Char) : Except Unit (Json × List Char) :=
  match s with
  | '-' :: rest => (parsePosNum rest).map (fun p => (Json.num (-(p.1 : Int)), p.2))
  | _ => (parsePosNum s).map (fun p => (Json.num (p.1 : Int), p.2))

mutual

/-- Recursive-descent JSON value parser (fuel-indexed; the fuel strictly
decreases on every nested call, so any fuel larger than twice the input
length is enough). -/
def parseVal : Nat → List Char → Except Unit (Json × List Char)
  | 0, _ => .error ()
  | Nat.succ fuel, s =>
    match skipWs s with
    | '"' :: rest => (parseStrBody rest).map (fun p => (Json.str p.1, p.2))
    | '[' :: rest =>
      (match skipWs rest with
       | ']' :: r => .ok (Json.arr [], r)
       | rest2 => (parseElems fuel rest2).map (fun p => (Json.arr p.1, p.2)))
    | '{' :: rest =>
      (match skipWs rest with
       | '}' :: r => .ok (Json.obj [], r)
       | rest2 => (parseMembers fuel rest2).map (fun p => (Json.obj p.1, p.2)))
    | 't' :: 'r' :: 'u' :: 'e' :: r => .ok (Json.bool true, r)
    | 'f' :: 'a' :: 'l' :: 's' :: 'e' :: r => .ok (Json.bool false, r)
    | 'n' :: 'u' :: 'l' :: 'l' :: r => .ok (Json.null, r)
    | rest => parseNum rest

/-- One-or-more comma-separated array elements, through the closing `]`. -/
def parseElems : Nat → List Char → Except Unit (List Json × List Char)
  | 0, _ => .error ()
  | Nat.succ fuel, s => do
    let (v, r) ← parseVal fuel s
    match skipWs r with
    | ',' :: r2 => (parseElems fuel r2).map (fun p => (v :: p.1, p.2))
    | ']' :: r2 => .ok ([v], r2)
    | _ => .error ()

/-- One-or-more comma-separated object members, through the closing `}`. -/
def parseMembers : Nat → List Char → Except Unit (List (String × Json) × List Char)
  | 0, _ => .error ()
  | Nat.succ fuel, s =>
    match skipWs s with
    | '"' :: rest => do
      let (k, r) ← parseStrBody rest
      match skipWs r with
      | ':' :: r2 => do
        let (v, r3) ← parseVal fuel r2
        match skipWs r3 with
        | ',' :: r4 => (parseMembers fuel r4).map (fun p => ((k, v) :: p.1, p.2))
        | '}' :: r4 => .ok ([(k, v)], r4)
        | _ => .error ()
      | _ => .error ()
    | _ => .error ()

end

/-- Model of `JSON.parse`: a single value with surrounding whitespace,
requiring the whole input to be consumed. -/
def Json.parse (s : String) : Except Unit Json :=
  match parseVal (2 * s.data.length + 4) s.data with
  | .ok (v, r) => if (skipWs r).isEmpty then .ok v else .error ()
  | .error e => .error e

/-- Model of `text.match(/\[[\s\S]*\]/)`: the (leftmost-greedy) match runs
from the first `[` that has some `]` after it, through the last `]` of the
whole text. -/
def firstBracketSpan (s : List Char) : Option (List Char) :=
  match s.dropWhile (fun c => c ≠ '[') with
  | [] => none
  | lb :: rest =>
    let tail := (rest.reverse.dropWhile (fun c => c ≠ ']')).reverse
    if tail.isEmpty then none else some (lb :: tail)

example : Json.parse "[]" = .ok (Json.arr []) := by rfl
example : Json.parse " \x7b\"a\": 1, \"b\": [true, null, \"x\"]\x7d " =
    .ok (Json.obj [("a", Json.num 1), ("b", Json.arr [Json.bool true, Json.null, Json.str "x"])]) := by rfl
example : Json.parse "[1, 2" = .error () := by rfl
example : Json.parse "[\x7b\"question\":\"q1\",\"answer\":\"a1\"\x7d]" =
    .ok (Json.arr [Json.obj [("question", Json.str "q1"), ("answer", Json.str "a1")]]) := by rfl
example : firstBracketSpan "xx [1, 2] yy".data = some "[1, 2]".data := by rfl
example : firstBracketSpan "no brackets ] here".data = none := by rfl
example : firstBracketSpan "a [1] b ]".data = some "[1] b ]".data := by rfl

/-! ## Question-set generation (two source variants) -/

/-- The form data validated by the zod schema (experience is numeric;
the claims only exercise integer values). -/
structure FormData where
  position : String
  description : String
  experience : Int
  techStack : String
deriving DecidableEq, Repr

/-- Truthiness of `parsed.length` in `if (!parsed.length) throw ...`:
a JS array or string is kept when its length is non-zero; for every other
value the check routes to the enclosing catch (either `!undefined` is true
or the property access itself throws), i.e. behaves as length 0. -/
def truthyLength : Json → Bool
  | .arr l => l.length != 0
  | .str s => s.length != 0
  | _ => false

namespace Part001

/-- `cleanAiResponse` of `src/unnamed/part_001` (lines 81–90): take the
first-`[`-to-last-`]` span and `JSON.parse` it, returning the empty array
when there is no span or the parse throws. -/
def cleanAiResponse (text : String) : Json :=
  match firstBracketSpan text.data with
  | none => Json.arr []
  | some span =>
    match Json.parse (String.mk span) with
    | .ok v => v
    | .error _ => Json.arr []

/-- The fixed 5-item fallback of `generateAiResponse` in
`src/unnamed/part_001` (lines 142–163), synthesized from the job context. -/
def fallbackQuestions (d : FormData) : List Json :=
  [ Json.obj
      [ ("question", Json.str ("Explain " ++ d.techStack ++ "."))
      , ("answer", Json.str (d.techStack ++
          " is widely used in modern application development to build scalable and efficient systems.")) ]
  , Json.obj
      [ ("question", Json.str ("What are your responsibilities as a " ++ d.position ++ "?"))
      , ("answer", Json.str ("As a " ++ d.position ++
          ", I am responsible for designing, developing, testing, and maintaining applications.")) ]
  , Json.obj
      [ ("question", Json.str "How do you solve real-world problems in projects?")
      , ("answer", Json.str
          "I analyze requirements, break the problem into smaller tasks, and implement solutions step by step.") ]
  , Json.obj
      [ ("question", Json.str ("What best practices do you follow while working with " ++ d.techStack ++ "?"))
      , ("answer", Json.str
          "I follow clean code principles, proper error handling, performance optimization, and documentation.") ]
  , Json.obj
      [ ("question", Json.str ("How does your " ++ toString d.experience ++ " years of experience help you?"))
      , ("answer", Json.str
          "My experience helps me anticipate edge cases, write efficient code, and make better technical decisions.") ] ]

/-- `generateAiResponse` of `src/unnamed/part_001` (lines 93–165): on a
service failure, a missing/unparseable array, or an empty parsed result
(`if (!parsed.length) throw`), return the fixed 5-item fallback; otherwise
return the parsed value unchanged. The service outcome is the `svc`
oracle. -/
def generateAiResponse (d : FormData) (svc : Except Unit String) : Json :=
  match svc with
  | .error _ => Json.arr (fallbackQuestions d)
  | .ok text =>
    let parsed := cleanAiResponse text
    if truthyLength parsed then parsed else Json.arr (fallbackQuestions d)

end Part001

namespace FormSrc

/-- The 1-item fallback of `generateAiResponse` in
`src/components/form-mock-interview.tsx` (lines 89–95). -/
def fallbackQuestions (d : FormData) : List Json :=
  [ Json.obj
      [ ("question", Json.str ("Explain " ++ d.techStack))
      , ("answer", Json.str (d.techStack ++ " is widely used in development.")) ] ]

/-- `generateAiResponse` of `src/components/form-mock-interview.tsx`
(lines 69–96): throw on a missing bracket span (`Invalid AI response`) or
a `JSON.parse` failure, with the catch returning the 1-item fallback; a
successfully decoded value — including an empty array — is returned
unchanged, with no emptiness check. -/
def generateAiResponse (d : FormData) (svc : Except Unit String) : Json :=
  match svc with
  | .error _ => Json.arr (fallbackQuestions d)
  | .ok text =>
    match firstBracketSpan text.data with
    | none => Json.arr (fallbackQuestions d)
    | some span =>
      match Json.parse (String.mk span) with
      | .ok v => v
      | .error _ => Json.arr (fallbackQuestions d)

end FormSrc

/-! ## The answer session (record-answer.tsx) -/

/-- A persisted `userAnswers` document as built in `saveUserAnswer`
(the server-assigned `createdAt` timestamp is not modelled). -/
structure AnswerRecord where
  mockIdRef : String
  question : String
  correct_ans : String
  user_ans : String
  feedback : String
  rating : Nat
  userId : String
deriving DecidableEq, Repr

/-- Externally visible operations the session performs, in order. -/
inductive Effect where
  | startCapture : Effect
  | stopCapture : Effect
  | scoringCall (prompt : String) : Effect
  | queryExists (userId question : String) : Effect
  | writeDoc (record : AnswerRecord) : Effect
  | toastError (msg : String) : Effect
  | toastInfo (msg : String) : Effect
  | toastSuccess (msg : String) : Effect
deriving DecidableEq, Repr

/-- The React state of the `RecordAnswer` component (the `open` flag is
named `openModal`; `open` is a Lean keyword). -/
structure SessionState where
  userAnswer : String
  isAiGenerating : Bool
  aiResult : Option AIResponse
  openModal : Bool
  loading : Bool
  isRecording : Bool
deriving DecidableEq, Repr

/-- How one save invocation ended; per the design's state table, both a
fresh write and the `already answered` no-op complete the save flow
(reach `Saved`), while a thrown store error leaves it failed. -/
inductive SaveOutcome where
  | noop : SaveOutcome
  | alreadyAnswered : SaveOutcome
  | saved : SaveOutcome
  | failed : SaveOutcome
deriving DecidableEq, Repr

/-- Does the outcome reach the spec's `Saved` state? (§4.3: on the
`already exists` outcome the session transitions to `Saved` without
writing.) -/
def SaveOutcome.reachesSaved : SaveOutcome → Bool
  | .saved => true
  | .alreadyAnswered => true
  | _ => false

namespace RecordAnswer

/-- The evaluation prompt assembled in `generateResult`. -/
def buildPrompt (qst correctAns userAns : String) : String :=
  "\nEvaluate the user's interview answer.\n\nSTRICT FORMAT (no extra text):\nRating: <number from 1 to 10>\nFeedback: <2–3 lines constructive feedback>\n\nQuestion: " ++
    qst ++ "\nCorrect Answer: " ++ correctAns ++ "\nUser Answer: " ++ userAns ++ "\n"

/-- `generateResult` (record-answer.tsx, lines 99–143): call the scoring
service with the assembled prompt and extract the evaluation; a thrown
service error is caught and mapped to the sentinel
`{ratings: 0, feedback: "Unable to generate feedback."}` with an error
toast. Returns the evaluation and the effects in order. -/
def generateResult (qst correctAns userAns : String) (svc : Except Unit String) :
    AIResponse × List Effect :=
  match svc with
  | .ok text =>
    (parseEvaluation text, [Effect.scoringCall (buildPrompt qst correctAns userAns)])
  | .error _ =>
    ({ ratings := 0, feedback := "Unable to generate feedback." },
     [Effect.scoringCall (buildPrompt qst correctAns userAns),
      Effect.toastError "AI evaluation failed"])

/-- `recordUserAnswer` (record-answer.tsx, lines 74–95): while recording,
stop capture and either reject a trimmed answer shorter than 15 characters
with an `Answer too short` toast, or run the evaluation and store its
result; while idle, start capture. -/
def recordUserAnswer (question : QA) (st : SessionState) (svc : Except Unit String) :
    SessionState × List Effect :=
  if st.isRecording then
    if (jsTrim st.userAnswer).length < 15 then
      ({ st with isRecording := false },
       [Effect.stopCapture, Effect.toastError "Answer too short"])
    else
      let (result, effs) := generateResult question.question question.answer st.userAnswer svc
      ({ st with isRecording := false, isAiGenerating := false, aiResult := some result },
       Effect.stopCapture :: effs)
  else
    ({ st with isRecording := true }, [Effect.startCapture])

/-- The `userAnswers` document assembled in `saveUserAnswer`. -/
def mkAnswerRecord (question : QA) (userId interviewId : String) (st : SessionState)
    (ai : AIResponse) : AnswerRecord :=
  { mockIdRef := interviewId
  , question := question.question
  , correct_ans := question.answer
  , user_ans := st.userAnswer
  , feedback := ai.feedback
  , rating := ai.ratings
  , userId := userId }

/-- `saveUserAnswer` (record-answer.tsx, lines 156–198): a no-op when no
evaluation is stored; otherwise query for an existing `(userId, question)`
answer (oracle `queryRes`; `.error` models a thrown `getDocs`), skip the
write with an `Already answered` toast when one exists, and otherwise
insert the record (oracle `writeRes`). A `writeDoc` effect records a
document actually created, so a thrown insert — which creates nothing and
lands in the catch — contributes no `writeDoc`. The `finally` block always
clears `loading` and closes the modal. -/
def saveUserAnswer (question : QA) (userId interviewId : String) (st : SessionState)
    (queryRes : Except Unit Bool) (writeRes : Except Unit Unit) :
    SessionState × List Effect × SaveOutcome :=
  match st.aiResult with
  | none => (st, [], SaveOutcome.noop)
  | some ai =>
    let queryEff := Effect.queryExists userId question.question
    match queryRes with
    | .error _ =>
      ({ st with loading := false, openModal := false },
       [queryEff, Effect.toastError "Failed to save answer"], SaveOutcome.failed)
    | .ok true =>
      ({ st with loading := false, openModal := false },
       [queryEff, Effect.toastInfo "Already answered"], SaveOutcome.alreadyAnswered)
    | .ok false =>
      let record := mkAnswerRecord question userId interviewId st ai
      match writeRes with
      | .error _ =>
        ({ st with loading := false, openModal := false },
         [queryEff, Effect.toastError "Failed to save answer"],
         SaveOutcome.failed)
      | .ok _ =>
        ({ st with
            userAnswer := ""
            isRecording := false
            loading := false
            openModal := false },
         [queryEff, Effect.writeDoc record, Effect.toastSuccess "Answer saved successfully",
          Effect.stopCapture],
         SaveOutcome.saved)

end RecordAnswer

/-! ## Transcript accumulation (record-answer.tsx, lines 202–209) -/

/-- One unit of speech-recognition output as delivered by the capture
source (§6): a transcript and whether it is final. -/
structure Fragment where
  text : String
  isFinal : Bool
deriving DecidableEq, Repr

/-- A non-legacy speech result of the hook (`ResultType`); only the
`transcript` field is read by the component. -/
structure ResultType where
  transcript : String
deriving DecidableEq, Repr

/-- The hook's `results` array as a function of the fragment stream:
with `useLegacyResults: false` each *final* fragment is appended as a
`ResultType` object (interim text is exposed separately and never enters
`results`); legacy entries would be plain strings, hence the sum type. -/
def resultsOf (frags : List Fragment) : List (ResultType ⊕ String) :=
  (frags.filter (fun f => f.isFinal)).map (fun f => Sum.inl { transcript := f.text })

/-- The accumulation effect (record-answer.tsx, lines 202–209): filter out
legacy string entries (`typeof r !== "string"`), take each transcript, and
join with a single space. -/
def combinedTranscript (results : List (ResultType ⊕ String)) : String :=
  String.intercalate " "
    (results.filterMap (fun r =>
      match r with
      | Sum.inl rt => some rt.transcript
      | Sum.inr _ => none))

/-- The transcripts of the final fragments in arrival order (the spec's
invariant vocabulary, §3 TranscriptState). -/
def finalTranscripts (frags : List Fragment) : List String :=
  (frags.filter (fun f => f.isFinal)).map (fun f => f.text)

/-! ## Sequential store model for the save path -/

/-- Does a stored record match the `(userId, question)` equality query of
`saveUserAnswer`? -/
def recordMatches (userId question : String) (r : AnswerRecord) : Bool :=
  r.userId = userId && r.question = question

/-- Number of stored answers for one `(userId, question)` pair. -/
def countFor (userId question : String) (store : List AnswerRecord) : Nat :=
  (store.filter (recordMatches userId question)).length

/-- The documents created by a list of effects. -/
def writesOf (effs : List Effect) : List AnswerRecord :=
  effs.filterMap (fun e =>
    match e with
    | Effect.writeDoc r => some r
    | _ => none)

/-- One sequential (non-racy, §5) save attempt against a concrete store:
the existence query is answered from the store, and successful writes are
appended to it. -/
def runSave (store : List AnswerRecord) (question : QA) (userId interviewId : String)
    (st : SessionState) (writeRes : Except Unit Unit) :
    List AnswerRecord × SessionState × List Effect × SaveOutcome :=
  let existing := store.any (recordMatches userId question.question)
  let out := RecordAnswer.saveUserAnswer question userId interviewId st
    (.ok existing) writeRes
  (store ++ writesOf out.2.1, out)

/-- The scoring invocations among a list of effects. -/
def scoringCallsOf (effs : List Effect) : List String :=
  effs.filterMap (fun e =>
    match e with
    | Effect.scoringCall p => some p
    | _ => none)

/-- Is the value a JSON string? -/
def isStr : Json → Bool
  | .str _ => true
  | _ => false

/-- Is the value a record with string `question` and `answer` fields
(the shape the claims call a question/answer record)? -/
def isQuestionAnswerRecord : Json → Bool
  | .obj l =>
    (l.any fun m => m.1 = "question" && isStr m.2) &&
      (l.any fun m => m.1 = "answer" && isStr m.2)
  | _ => false

/-- Concrete job context used by witnesses and counterexamples. -/
def exampleFormData : FormData :=
  { position := "Backend Engineer"
  , description := "Designs and maintains services"
  , experience := 3
  , techStack := "NodeJS" }

/-- The inner text (between the outer brackets) of a concrete valid
5-record JSON array. -/
def sampleInner : List Char :=
  ("\x7b\"question\":\"q1\",\"answer\":\"a1\"\x7d," ++
   "\x7b\"question\":\"q2\",\"answer\":\"a2\"\x7d," ++
   "\x7b\"question\":\"q3\",\"answer\":\"a3\"\x7d," ++
   "\x7b\"question\":\"q4\",\"answer\":\"a4\"\x7d," ++
   "\x7b\"question\":\"q5\",\"answer\":\"a5\"\x7d").data

/-- The concrete valid 5-record JSON array text. -/
def sampleArrayText : String := String.mk ('[' :: (sampleInner ++ [']']))

/-- The five records denoted by `sampleArrayText`. -/
def sampleItems : List Json :=
  [ Json.obj [("question", Json.str "q1"), ("answer", Json.str "a1")]
  , Json.obj [("question", Json.str "q2"), ("answer", Json.str "a2")]
  , Json.obj [("question", Json.str "q3"), ("answer", Json.str "a3")]
  , Json.obj [("question", Json.str "q4"), ("answer", Json.str "a4")]
  , Json.obj [("question", Json.str "q5"), ("answer", Json.str "a5")] ]

/-- The ten decimal digit characters: the character class `\d` of the
rating regex. -/
def digitChars : List Char := ['0', '1', '2', '3', '4', '5', '6', '7', '8', '9']

/-- The decimal digit string of a natural number (most significant digit
first), used to exhibit a `\d+` writing for every rating value. -/
def natDigits (n : Nat) : List Char :=
  if n < 10 then [Nat.digitChar n]
  else natDigits (n / 10) ++ [Nat.digitChar (n % 10)]
decreasing_by exact Nat.div_lt_self (by omega) (by omega)

example : RecordAnswer.parseEvaluation "Rating: 3\nFeedback: Needs more detail." =
    { ratings := 3, feedback := "Needs more detail." } := by rfl

example : RecordAnswer.parseEvaluation "Feedback: Good" =
    { ratings := 0, feedback := "Good" } := by rfl

example : RecordAnswer.parseEvaluation "nothing at all" =
    { ratings := 0, feedback := "No feedback generated." } := by rfl

example : RecordAnswer.parseEvaluation "Rating: 15\nFeedback: x" =
    { ratings := 15, feedback := "x" } := by rfl

example : RecordAnswer.parseEvaluation "blah rating:   7 Feedback:\n  ok  " =
    { ratings := 7, feedback := "ok" } := by rfl

example : Json.parse sampleArrayText = .ok (Json.arr sampleItems) := by rfl

/-! ## Helper lemmas -/

theorem length_dropWhile_le (p : Char → Bool) (l : List Char) :
    (l.dropWhile p).length ≤ l.length := by
  induction l with
  | nil => simp [List.dropWhile]
  | cons c cs ih =>
    by_cases h : p c
    · simp only [List.dropWhile_cons, h, if_pos]
      exact Nat.le_succ_of_le ih
    · simp [List.dropWhile_cons, h]

theorem dropWhile_dropWhile_self (p : Char → Bool) (l : List Char) :
    (l.dropWhile p).dropWhile p = l.dropWhile p := by
  induction l with
  | nil => simp [List.dropWhile]
  | cons c cs ih =>
    by_cases h : p c
    · simpa [List.dropWhile_cons, h] using ih
    · simp [List.dropWhile_cons, h]

theorem jsTrimL_dropWhile (l : List Char) :
    jsTrimL (l.dropWhile isWsChar) = jsTrimL l := by
  simp [jsTrimL, dropWhile_dropWhile_self]

theorem jsTrimL_length_le (l : List Char) : (jsTrimL l).length ≤ l.length := by
  calc (jsTrimL l).length
      = (((l.dropWhile isWsChar).reverse.dropWhile isWsChar)).length := by
        simp [jsTrimL]
    _ ≤ (l.dropWhile isWsChar).reverse.length := length_dropWhile_le _ _
    _ = (l.dropWhile isWsChar).length := by simp
    _ ≤ l.length := length_dropWhile_le _ _

theorem jsTrim_length_le (s : String) : (jsTrim s).length ≤ s.length :=
  jsTrimL_length_le s.data

theorem dropWhile_append_all (p : Char → Bool) (l₁ l₂ : List Char)
    (h : ∀ c ∈ l₁, p c = true) :
    (l₁ ++ l₂).dropWhile p = l₂.dropWhile p := by
  induction l₁ with
  | nil => simp
  | cons c cs ih =>
    have hc : p c = true := h c (by simp)
    simp only [List.cons_append, List.dropWhile_cons, hc, if_pos]
    exact ih (fun d hd => h d (by simp [hd]))

theorem findRating_eq_none (l : List Char) (h : hasLabel ratingLabel l = false) :
    findRating l = none := by
  induction l with
  | nil => rfl
  | cons c cs ih =>
    simp only [hasLabel, Bool.or_eq_false_iff] at h
    simp only [findRating, h.1, Bool.false_eq_true, if_false]
    exact ih h.2

theorem findFeedback_eq_none (l : List Char) (h : hasLabel feedbackLabel l = false) :
    findFeedback l = none := by
  induction l with
  | nil => rfl
  | cons c cs ih =>
    simp only [hasLabel, Bool.or_eq_false_iff] at h
    simp only [findFeedback, h.1, Bool.false_eq_true, if_false]
    exact ih h.2

theorem firstBracketSpan_decomp (pre mid post : List Char)
    (hpre : '[' ∉ pre) (hpost : ']' ∉ post) :
    firstBracketSpan (pre ++ '[' :: (mid ++ [']']) ++ post) =
      some ('[' :: (mid ++ [']'])) := by
  have h1 : (pre ++ '[' :: (mid ++ [']']) ++ post).dropWhile (fun c => c ≠ '[') =
      '[' :: ((mid ++ [']']) ++ post) := by
    rw [List.append_assoc, dropWhile_append_all _ pre _
      (fun c hc => by simp [decide_eq_true_eq]; exact fun h => hpre (h ▸ hc))]
    simp [List.dropWhile_cons]
  have h2 : ((mid ++ [']']) ++ post).reverse.dropWhile (fun c => c ≠ ']') =
      ']' :: mid.reverse := by
    rw [List.reverse_append, dropWhile_append_all _ post.reverse _
      (fun c hc => by
        simp [decide_eq_true_eq]
        exact fun h => hpost (h ▸ (List.mem_reverse.mp hc)))]
    simp [List.reverse_append, List.dropWhile_cons]
  simp only [firstBracketSpan, h1, h2]
  simp

theorem isDigit_of_mem_digitChars (c : Char) (h : c ∈ digitChars) :
    c.isDigit = true := by
  have hall : ∀ d ∈ digitChars, d.isDigit = true := by decide
  exact hall c h

theorem isWsChar_of_mem_digitChars (c : Char) (h : c ∈ digitChars) :
    isWsChar c = false := by
  have hall : ∀ d ∈ digitChars, isWsChar d = false := by decide
  exact hall c h

theorem charCaseEq_F_of_mem_digitChars (c : Char) (h : c ∈ digitChars) :
    charCaseEq c 'F' = false := by
  have hall : ∀ d ∈ digitChars, charCaseEq d 'F' = false := by decide
  exact hall c h

theorem takeWhile_digits_append (ds rest : List Char)
    (h : ∀ c ∈ ds, c ∈ digitChars) :
    (ds ++ rest).takeWhile Char.isDigit = ds ++ rest.takeWhile Char.isDigit := by
  induction ds with
  | nil => simp
  | cons c cs ih =>
    have hc := isDigit_of_mem_digitChars c (h c (by simp))
    simp only [List.cons_append, List.takeWhile_cons, hc, if_pos]
    rw [ih (fun d hd => h d (by simp [hd]))]

/-- The rating regex matches at the very start of
`"Rating: " ++ digits ++ "\n" ++ rest`, extracting the whole digit run. -/
theorem findRating_start (ds rest : List Char)
    (hne : ds ≠ []) (hdig : ∀ c ∈ ds, c ∈ digitChars) :
    findRating ("Rating: ".data ++ (ds ++ '\n' :: rest)) =
      some (digitsToNat ds) := by
  obtain ⟨c, ds', rfl⟩ := List.exists_cons_of_ne_nil hne
  have hcw := isWsChar_of_mem_digitChars c (hdig c (by simp))
  have h1 : ((('R' :: 'a' :: 't' :: 'i' :: 'n' :: 'g' :: ':' :: ' ' :: ((c :: ds') ++ '\n' :: rest) :
      List Char).drop ratingLabel.length).dropWhile isWsChar) =
      (c :: ds') ++ '\n' :: rest := by
    show ((' ' :: ((c :: ds') ++ '\n' :: rest)).dropWhile isWsChar) = _
    rw [List.dropWhile_cons]
    simp only [show isWsChar ' ' = true from rfl, if_true, List.cons_append,
      List.dropWhile_cons, hcw]
    simp
  have h2 : (((c :: ds') ++ '\n' :: rest).takeWhile Char.isDigit) = c :: ds' := by
    rw [takeWhile_digits_append _ _ hdig]
    simp [List.takeWhile_cons]
  show findRating
    ('R' :: 'a' :: 't' :: 'i' :: 'n' :: 'g' :: ':' :: ' ' :: ((c :: ds') ++ '\n' :: rest)) = _
  rw [findRating]
  have hm : matchesLabel ratingLabel
      ('R' :: 'a' :: 't' :: 'i' :: 'n' :: 'g' :: ':' :: ' ' :: ((c :: ds') ++ '\n' :: rest)) =
      true := rfl
  rw [hm]
  simp only [if_true, h1, h2]
  simp

theorem matchesLabel_feedback_false (c : Char) (cs : List Char)
    (h : charCaseEq c 'F' = false) :
    matchesLabel feedbackLabel (c :: cs) = false := by
  rw [show feedbackLabel = 'F' :: "eedback:".data from rfl, matchesLabel]
  simp [h]

/-- The feedback regex scan passes over a digit run without matching. -/
theorem findFeedback_skip_digits (ds rest : List Char)
    (hdig : ∀ c ∈ ds, c ∈ digitChars) :
    findFeedback (ds ++ rest) = findFeedback rest := by
  induction ds with
  | nil => simp
  | cons c cs ih =>
    rw [List.cons_append, findFeedback,
      matchesLabel_feedback_false c _
        (charCaseEq_F_of_mem_digitChars c (hdig c (by simp)))]
    simp only [Bool.false_eq_true, if_false]
    exact ih (fun d hd => hdig d (by simp [hd]))

/-- The feedback regex on `"Rating: " ++ digits ++ "\nFeedback: " ++ fb`
captures exactly the tail after the label's whitespace. -/
theorem findFeedback_full (ds fbl : List Char)
    (hdig : ∀ c ∈ ds, c ∈ digitChars) :
    findFeedback ("Rating: ".data ++ (ds ++ '\n' :: ("Feedback: ".data ++ fbl))) =
      some (fbl.dropWhile isWsChar) := by
  have hpre : findFeedback
      ("Rating: ".data ++ (ds ++ '\n' :: ("Feedback: ".data ++ fbl))) =
      findFeedback (ds ++ '\n' :: ("Feedback: ".data ++ fbl)) := rfl
  rw [hpre, findFeedback_skip_digits _ _ hdig]
  rfl

theorem digitsToNat_append_one (ds : List Char) (c : Char) :
    digitsToNat (ds ++ [c]) = digitsToNat ds * 10 + (c.toNat - 48) := by
  simp [digitsToNat, List.foldl_append]

theorem digitChar_mem (d : Nat) (h : d < 10) : Nat.digitChar d ∈ digitChars := by
  interval_cases d <;> decide

theorem digitsToNat_single (d : Nat) (h : d < 10) :
    digitsToNat [Nat.digitChar d] = d := by
  interval_cases d <;> decide

theorem natDigits_ne_nil (n : Nat) : natDigits n ≠ [] := by
  rw [natDigits]
  by_cases h : n < 10 <;> simp [h]

theorem natDigits_mem (n : Nat) : ∀ c ∈ natDigits n, c ∈ digitChars := by
  induction n using Nat.strong_induction_on with
  | _ n ih =>
    rw [natDigits]
    by_cases h : n < 10
    · simp only [h, if_true]
      intro c hc
      simp at hc
      exact hc ▸ digitChar_mem n h
    · simp only [h, if_false]
      intro c hc
      rcases List.mem_append.mp hc with h1 | h2
      · exact ih (n / 10) (Nat.div_lt_self (by omega) (by omega)) c h1
      · simp at h2
        exact h2 ▸ digitChar_mem (n % 10) (Nat.mod_lt _ (by omega))

theorem digitsToNat_natDigits (n : Nat) : digitsToNat (natDigits n) = n := by
  induction n using Nat.strong_induction_on with
  | _ n ih =>
    rw [natDigits]
    by_cases h : n < 10
    · simp only [h, if_true]
      exact digitsToNat_single n h
    · simp only [h, if_false]
      rw [digitsToNat_append_one, ih (n / 10) (Nat.div_lt_self (by omega) (by omega))]
      have h10 : n % 10 < 10 := Nat.mod_lt _ (by omega)
      have hc : (Nat.digitChar (n % 10)).toNat - 48 = n % 10 := by
        interval_cases hd : n % 10 <;> decide
      omega

/-! ## Example inputs used by witnesses -/

/-- A concrete canonical question/answer pair. -/
def exampleQA : QA :=
  { question := "What is a cache?", answer := "A cache stores data for faster access." }

/-- A session that is recording a 14-character answer and holds no
evaluation. -/
def exampleShortState : SessionState :=
  { userAnswer := "a short answer"
  , isAiGenerating := false
  , aiResult := none
  , openModal := false
  , loading := false
  , isRecording := true }

/-- A concrete stored evaluation. -/
def exampleAI : AIResponse := { ratings := 7, feedback := "ok" }

/-- A session in the evaluated phase, about to save. -/
def exampleEvaluatedState : SessionState :=
  { userAnswer := "I think it is a cache and it is fast"
  , isAiGenerating := false
  , aiResult := some exampleAI
  , openModal := true
  , loading := false
  , isRecording := false }

/-! ## Claim theorems -/

/-- C1: whenever the stored evaluation exists and the existence query for
`(userId, questionText)` comes back non-empty, the session issues no write:
it emits the `Already answered` notice, reaches the `Saved` outcome, and —
in the sequential store model — at most one record per `(userId, question)`
pair ever results from a save attempt. -/
theorem c1_exists_check_prevents_duplicate_write :
    (∀ (question : QA) (userId interviewId : String) (st : SessionState)
      (ai : AIResponse) (writeRes : Except Unit Unit),
      st.aiResult = some ai →
      writesOf (RecordAnswer.saveUserAnswer question userId interviewId st
        (.ok true) writeRes).2.1 = [] ∧
      Effect.toastInfo "Already answered" ∈
        (RecordAnswer.saveUserAnswer question userId interviewId st
          (.ok true) writeRes).2.1 ∧
      (RecordAnswer.saveUserAnswer question userId interviewId st
        (.ok true) writeRes).2.2.reachesSaved = true) ∧
    (∀ (store : List AnswerRecord) (question : QA) (userId interviewId : String)
      (st : SessionState) (writeRes : Except Unit Unit),
      countFor userId question.question
          (runSave store question userId interviewId st writeRes).1 ≤
        max (countFor userId question.question store) 1) := by
  constructor
  · intro q uid iid st ai w h
    simp [RecordAnswer.saveUserAnswer, h, writesOf, SaveOutcome.reachesSaved]
  · intro store q uid iid st w
    unfold runSave
    cases hai : st.aiResult with
    | none =>
      simp [RecordAnswer.saveUserAnswer, hai, writesOf]
    | some ai =>
      cases hex : store.any (recordMatches uid q.question) with
      | true =>
        simp [RecordAnswer.saveUserAnswer, hai, hex, writesOf]
      | false =>
        have hfil : store.filter (recordMatches uid q.question) = [] :=
          List.filter_eq_nil_iff.mpr (fun a ha => List.any_eq_false.mp hex a ha)
        cases w with
        | error e =>
          simp [RecordAnswer.saveUserAnswer, hai, hex, writesOf, countFor, hfil]
        | ok u =>
          have hmatch : recordMatches uid q.question
              (RecordAnswer.mkAnswerRecord q uid iid st ai) = true := by
            simp [recordMatches, RecordAnswer.mkAnswerRecord]
          simp [RecordAnswer.saveUserAnswer, hai, hex, writesOf, countFor,
            List.filter_append, hfil, hmatch]

/-- C1 witness: a concrete evaluated session attempting to save when the
pair already exists issues no write and reaches `Saved`. -/
theorem c1_witness :
    exampleEvaluatedState.aiResult = some exampleAI ∧
    writesOf (RecordAnswer.saveUserAnswer exampleQA "user-1" "interview-1"
      exampleEvaluatedState (.ok true) (.ok ())).2.1 = [] ∧
    (RecordAnswer.saveUserAnswer exampleQA "user-1" "interview-1"
      exampleEvaluatedState (.ok true) (.ok ())).2.2.reachesSaved = true :=
  ⟨rfl,
   (c1_exists_check_prevents_duplicate_write.1 exampleQA "user-1" "interview-1"
     exampleEvaluatedState exampleAI (.ok ()) rfl).1,
   (c1_exists_check_prevents_duplicate_write.1 exampleQA "user-1" "interview-1"
     exampleEvaluatedState exampleAI (.ok ()) rfl).2.2⟩

/-- C2 (amended): in the `part_001` variant, whenever structured extraction
fails on the raw text — no bracketed span, a JSON decode error, or a decoded
empty array — `generateAiResponse` returns the fixed fallback of exactly 5
question/answer pairs synthesized from the job context. (The
`form-mock-interview.tsx` variant does not satisfy the original claim; see
the counterexample.) -/
theorem c2_part001_five_item_fallback (d : FormData) (text : String)
    (h : firstBracketSpan text.data = none ∨
      ∃ span, firstBracketSpan text.data = some span ∧
        (Json.parse (String.mk span) = .error () ∨
         Json.parse (String.mk span) = .ok (Json.arr []))) :
    Part001.generateAiResponse d (.ok text) = Json.arr (Part001.fallbackQuestions d) ∧
    (Part001.fallbackQuestions d).length = 5 := by
  have hclean : Part001.cleanAiResponse text = Json.arr [] := by
    rcases h with h | ⟨span, hspan, herr | hok⟩
    · simp [Part001.cleanAiResponse, h]
    · simp [Part001.cleanAiResponse, hspan, herr]
    · simp [Part001.cleanAiResponse, hspan, hok]
  exact ⟨by simp [Part001.generateAiResponse, hclean, truthyLength], rfl⟩

/-- C2 witness: concrete bracket-free text routes to the 5-item fallback. -/
theorem c2_witness :
    firstBracketSpan ("no questions today" : String).data = none ∧
    Part001.generateAiResponse exampleFormData (.ok "no questions today") =
      Json.arr (Part001.fallbackQuestions exampleFormData) ∧
    (Part001.fallbackQuestions exampleFormData).length = 5 :=
  ⟨rfl,
   (c2_part001_five_item_fallback exampleFormData "no questions today" (Or.inl rfl)).1,
   (c2_part001_five_item_fallback exampleFormData "no questions today" (Or.inl rfl)).2⟩

/-- C2 counterexample: the `form-mock-interview.tsx` variant of question
generation, on raw text `"[]"` (a decoded array that is empty — an
extraction failure in the claim's sense), returns the empty array itself:
not a 5-item fallback, and in fact an empty result. -/
theorem c2_counterexample :
    Json.parse "[]" = .ok (Json.arr []) ∧
    FormSrc.generateAiResponse exampleFormData (.ok "[]") = Json.arr [] ∧
    ([] : List Json).length < 5 :=
  ⟨rfl, rfl, by decide⟩

/-- C3 (amended): on raw text with no `Rating:` label, evaluation
extraction returns rating 0, and the feedback is `"No feedback generated."`
only when the `Feedback:` label is also absent (when a `Feedback:` label is
present its trimmed text is returned instead; the string
`"Unable to generate feedback."` arises only from the thrown-service-error
path, cf. C8). -/
theorem c3_no_rating_gives_zero (text : String)
    (h : hasLabel ratingLabel text.data = false) :
    (RecordAnswer.parseEvaluation text).ratings = 0 ∧
    (hasLabel feedbackLabel text.data = false →
      (RecordAnswer.parseEvaluation text).feedback = "No feedback generated.") := by
  constructor
  · simp [RecordAnswer.parseEvaluation, findRating_eq_none _ h]
  · intro hf
    simp [RecordAnswer.parseEvaluation, findFeedback_eq_none _ hf]

/-- C3 witness: concrete label-free text yields the 0 rating and the
`"No feedback generated."` default. -/
theorem c3_witness :
    hasLabel ratingLabel ("some plain text" : String).data = false ∧
    (RecordAnswer.parseEvaluation "some plain text").ratings = 0 ∧
    (RecordAnswer.parseEvaluation "some plain text").feedback =
      "No feedback generated." :=
  ⟨by decide,
   (c3_no_rating_gives_zero "some plain text" (by decide)).1,
   (c3_no_rating_gives_zero "some plain text" (by decide)).2 (by decide)⟩

/-- C3 counterexample: raw text with no `Rating:` label but with a
`Feedback:` label does not produce the sentinel pair — the feedback is the
extracted text, not `"Unable to generate feedback."`. -/
theorem c3_counterexample :
    hasLabel ratingLabel ("Feedback: Good" : String).data = false ∧
    RecordAnswer.parseEvaluation "Feedback: Good" =
      { ratings := 0, feedback := "Good" } ∧
    ("Good" : String) ≠ "Unable to generate feedback." :=
  ⟨by decide, rfl, by decide⟩

/-- C4 (amended): for every integer value outside [0,10] (`\d+` can only
write nonnegative runs, so out of range means greater than 10), every
digit-run writing of it after the `Rating:` label in well-formed text, and
every feedback tail, extraction returns exactly that integer — unclamped —
and never rejects; the first conjunct exhibits a digit-run writing for
every value. -/
theorem c4_rating_unclamped :
    (∀ n : Nat, ∃ ds : List Char,
      ds ≠ [] ∧ (∀ c ∈ ds, c ∈ digitChars) ∧ digitsToNat ds = n) ∧
    (∀ (n : Nat) (ds : List Char) (fb : String), 10 < n → ds ≠ [] →
      (∀ c ∈ ds, c ∈ digitChars) → digitsToNat ds = n →
      RecordAnswer.parseEvaluation
          ("Rating: " ++ String.mk ds ++ "\nFeedback: " ++ fb) =
        { ratings := n, feedback := jsTrim fb }) := by
  constructor
  · intro n
    exact ⟨natDigits n, natDigits_ne_nil n, natDigits_mem n, digitsToNat_natDigits n⟩
  · intro n ds fb _hout hne hdig hval
    obtain ⟨fbl⟩ := fb
    have hdata : (("Rating: " ++ String.mk ds ++ "\nFeedback: " ++ String.mk fbl :
        String)).data =
        "Rating: ".data ++ (ds ++ '\n' :: ("Feedback: ".data ++ fbl)) := by
      show (("Rating: ".data ++ ds) ++ ('\n' :: "Feedback: ".data)) ++ fbl = _
      simp [List.append_assoc]
    simp only [RecordAnswer.parseEvaluation, hdata, findRating_start ds _ hne hdig,
      findFeedback_full ds fbl hdig, Option.getD_some, hval, jsTrimL_dropWhile]
    rfl

/-- C4 witness: the digit run `15` after `Rating:` is returned as the
out-of-range rating 15. -/
theorem c4_witness :
    (10 : Nat) < 15 ∧ (['1', '5'] : List Char) ≠ [] ∧
    (∀ c ∈ (['1', '5'] : List Char), c ∈ digitChars) ∧
    digitsToNat ['1', '5'] = 15 ∧
    RecordAnswer.parseEvaluation
        ("Rating: " ++ String.mk ['1', '5'] ++ "\nFeedback: " ++ "x") =
      { ratings := 15, feedback := jsTrim "x" } :=
  ⟨by decide, by decide, by decide, by decide,
   c4_rating_unclamped.2 15 ['1', '5'] "x" (by decide) (by decide) (by decide)
     (by decide)⟩

/-- C4 counterexample: the claim's own example input `Rating: 15` yields
rating 15, not the claimed clamp to 10. -/
theorem c4_counterexample :
    RecordAnswer.parseEvaluation "Rating: 15\nFeedback: x" =
      { ratings := 15, feedback := "x" } ∧ (15 : Nat) ≠ 10 :=
  ⟨rfl, by decide⟩

/-- C5 (amended): for every raw AI text whose first-`[`-to-last-`]` span is
a valid JSON array of exactly 5 question/answer records, question-set
extraction returns exactly those 5 items in their original order — texts
whose surrounding commentary keeps `[` out of the prefix and `]` out of the
suffix are extracted intact. (As originally stated over every text
*containing* such an array the claim fails; see the counterexample.) -/
theorem c5_five_record_array_extracted (pre mid post : List Char)
    (items : List Json)
    (hpre : '[' ∉ pre) (hpost : ']' ∉ post)
    (hparse : Json.parse (String.mk ('[' :: (mid ++ [']']))) =
      .ok (Json.arr items))
    (_hlen : items.length = 5)
    (_hqa : ∀ j ∈ items, isQuestionAnswerRecord j = true) :
    Part001.cleanAiResponse (String.mk (pre ++ '[' :: (mid ++ [']']) ++ post)) =
      Json.arr items := by
  have hdata : (String.mk (pre ++ '[' :: (mid ++ [']']) ++ post)).data =
      pre ++ '[' :: (mid ++ [']']) ++ post := rfl
  simp only [Part001.cleanAiResponse, hdata,
    firstBracketSpan_decomp pre mid post hpre hpost, hparse]

/-- C5 witness: a concrete 5-record array wrapped in bracket-free
commentary is extracted exactly. -/
theorem c5_witness :
    Json.parse sampleArrayText = .ok (Json.arr sampleItems) ∧
    sampleItems.length = 5 ∧
    Part001.cleanAiResponse ("AI says: " ++ sampleArrayText ++ " Have fun!") =
      Json.arr sampleItems :=
  ⟨rfl, rfl,
   c5_five_record_array_extracted ("AI says: ").data sampleInner (" Have fun!").data
     sampleItems (by decide) (by decide) rfl rfl (by decide)⟩

/-- C5 counterexample: a raw text that *contains* a valid 5-record JSON
array but has one more `]` in the trailing commentary: the greedy
first-`[`-to-last-`]` span fails to decode, and extraction returns the
empty array, not the 5 contained items. -/
theorem c5_counterexample :
    Json.parse sampleArrayText = .ok (Json.arr sampleItems) ∧
    sampleItems.length = 5 ∧
    (∀ j ∈ sampleItems, isQuestionAnswerRecord j = true) ∧
    Part001.cleanAiResponse (sampleArrayText ++ " ]") = Json.arr [] ∧
    Json.arr [] ≠ Json.arr sampleItems := by
  refine ⟨rfl, rfl, by decide, rfl, ?_⟩
  simp [sampleItems]

/-- C6: the accumulated answer is the space-joined concatenation of the
transcripts of the final fragments in arrival order; fragments marked
interim never contribute; and the final fragments
`["I think", "it is", "a cache"]` accumulate to `"I think it is a cache"`. -/
theorem c6_accumulated_answer_joins_finals :
    (∀ frags : List Fragment,
      combinedTranscript (resultsOf frags) =
        String.intercalate " " (finalTranscripts frags)) ∧
    (∀ frags : List Fragment,
      combinedTranscript (resultsOf frags) =
        combinedTranscript (resultsOf (frags.filter (fun f => f.isFinal)))) ∧
    combinedTranscript (resultsOf
      [ { text := "I think", isFinal := true }
      , { text := "it is", isFinal := true }
      , { text := "a cache", isFinal := true } ]) = "I think it is a cache" := by
  refine ⟨?_, ?_, rfl⟩
  · intro frags
    simp only [combinedTranscript, resultsOf, finalTranscripts,
      List.filterMap_map, Function.comp_def]
    exact congrArg (String.intercalate " ")
      (congrFun (List.filterMap_eq_map fun (f : Fragment) => f.text) _)
  · intro frags
    simp [resultsOf, List.filter_filter]

/-- C7: on stop-capture with an accumulated answer shorter than 15
characters, the scoring call is never issued, the stored evaluation is
unchanged, the session leaves the recording state (returns to idle), and
the user is notified `Answer too short`. -/
theorem c7_short_answer_skips_evaluation (question : QA) (st : SessionState)
    (svc : Except Unit String) (hrec : st.isRecording = true)
    (hshort : st.userAnswer.length < 15) :
    (RecordAnswer.recordUserAnswer question st svc).1.isRecording = false ∧
    (RecordAnswer.recordUserAnswer question st svc).1.aiResult = st.aiResult ∧
    scoringCallsOf (RecordAnswer.recordUserAnswer question st svc).2 = [] ∧
    Effect.toastError "Answer too short" ∈
      (RecordAnswer.recordUserAnswer question st svc).2 := by
  have htrim : (jsTrim st.userAnswer).length < 15 :=
    lt_of_le_of_lt (jsTrim_length_le st.userAnswer) hshort
  simp [RecordAnswer.recordUserAnswer, hrec, htrim, scoringCallsOf]

/-- C7 witness: a 14-character answer is rejected: no scoring call, back to
idle. -/
theorem c7_witness :
    exampleShortState.isRecording = true ∧
    exampleShortState.userAnswer.length < 15 ∧
    (RecordAnswer.recordUserAnswer exampleQA exampleShortState
      (.ok "Rating: 5\nFeedback: fine")).1.isRecording = false ∧
    scoringCallsOf (RecordAnswer.recordUserAnswer exampleQA exampleShortState
      (.ok "Rating: 5\nFeedback: fine")).2 = [] :=
  ⟨rfl, by decide,
   (c7_short_answer_skips_evaluation exampleQA exampleShortState
     (.ok "Rating: 5\nFeedback: fine") rfl (by decide)).1,
   (c7_short_answer_skips_evaluation exampleQA exampleShortState
     (.ok "Rating: 5\nFeedback: fine") rfl (by decide)).2.2.1⟩

/-- C8: the scoring invocation is total — for every service outcome
`generateResult` returns an evaluation and effect list (no propagated
failure), and when the service call throws it returns the sentinel
`{ratings: 0, feedback: "Unable to generate feedback."}`. -/
theorem c8_generateResult_total_with_sentinel :
    (∀ (qst correctAns userAns : String) (svc : Except Unit String),
      ∃ (r : AIResponse) (effs : List Effect),
        RecordAnswer.generateResult qst correctAns userAns svc = (r, effs)) ∧
    (∀ qst correctAns userAns : String,
      (RecordAnswer.generateResult qst correctAns userAns (.error ())).1 =
        { ratings := 0, feedback := "Unable to generate feedback." }) := by
  constructor
  · intro qst correctAns userAns svc
    exact ⟨_, _, rfl⟩
  · intro qst correctAns userAns
    rfl

/-- C9: a `Rating:` line with integer 3 followed by a `Feedback:` line
yields rating 3 and the trimmed post-label text through end of input, for
every feedback tail; in particular
`"Rating: 3\nFeedback: Needs more detail."` yields
`{rating: 3, feedback: "Needs more detail."}`. -/
theorem c9_rating_feedback_extracted :
    (∀ fb : String,
      RecordAnswer.parseEvaluation ("Rating: 3\nFeedback: " ++ fb) =
        { ratings := 3, feedback := jsTrim fb }) ∧
    RecordAnswer.parseEvaluation "Rating: 3\nFeedback: Needs more detail." =
      { ratings := 3, feedback := "Needs more detail." } := by
  refine ⟨?_, rfl⟩
  intro fb
  obtain ⟨l⟩ := fb
  have key : RecordAnswer.parseEvaluation ("Rating: 3\nFeedback: " ++ String.mk l) =
      { ratings := 3, feedback := String.mk (jsTrimL (l.dropWhile isWsChar)) } := rfl
  rw [key, jsTrimL_dropWhile]
  rfl

/-- C10: with no stored evaluation (`aiResult = null`), the save operation
is a complete no-op: no existence query, no write, no toast, and the whole
session state is returned unchanged. -/
theorem c10_save_requires_evaluation (question : QA)
    (userId interviewId : String) (st : SessionState)
    (queryRes : Except Unit Bool) (writeRes : Except Unit Unit)
    (h : st.aiResult = none) :
    RecordAnswer.saveUserAnswer question userId interviewId st queryRes writeRes =
      (st, [], SaveOutcome.noop) := by
  simp [RecordAnswer.saveUserAnswer, h]

/-- C10 witness: a concrete evaluation-free session's save attempt returns
the state unchanged with no effects. -/
theorem c10_witness :
    exampleShortState.aiResult = none ∧
    RecordAnswer.saveUserAnswer exampleQA "user-1" "interview-1"
      exampleShortState (.ok false) (.ok ()) =
      (exampleShortState, [], SaveOutcome.noop) :=
  ⟨rfl,
   c10_save_requires_evaluation exampleQA "user-1" "interview-1"
     exampleShortState (.ok false) (.ok ()) rfl⟩
